import Mathlib

/-!
Shallow embedding of the multi-currency account ledger and transfer engine
of the portal repository, together with proofs of its stated properties.

The embedding covers:
* the balance posting primitive `updateAccountBalance` (expense-linked
  postings) with its type-dependent sign rule and 2-decimal rounding;
* the transfer handler `handleTransfer` with its validation pipeline and
  its fixed persistence order;
* the manual balance correction `handleBalanceUpdate`;
* the FX rate cache `getExchangeRates` / `fetchRates` and the pure
  conversion function `convertAmount`.

JavaScript numbers are modelled as `JsNum` (NaN, the two infinities, or a
finite rational); monetary arithmetic on finite values is exact rational
arithmetic.  Persistence calls are modelled by an explicit trace of
`WriteEvent`s, with Boolean flags standing for the success or failure of
each store call; a call that fails contributes no event to the trace.
-/

namespace Portal

/-- A JavaScript number: NaN, +Infinity, -Infinity, or a finite value
(modelled as an exact rational). -/
inductive JsNum where
  | nan
  | posInf
  | negInf
  | fin (q : ℚ)
deriving DecidableEq, Repr

/-- JavaScript `isNaN(x)` on an already-parsed number. -/
def JsNum.isNaN : JsNum → Bool
  | .nan => true
  | _ => false

/-- JavaScript comparison `x <= 0`; false for NaN and +Infinity. -/
def JsNum.le0 : JsNum → Bool
  | .nan => false
  | .posInf => false
  | .negInf => true
  | .fin q => decide (q ≤ 0)

/-- JavaScript unary negation. -/
def JsNum.neg : JsNum → JsNum
  | .nan => .nan
  | .posInf => .negInf
  | .negInf => .posInf
  | .fin q => .fin (-q)

/-- JavaScript addition restricted to the values the ledger can produce
(no -0 distinction, exact rationals for finite values). -/
def JsNum.add : JsNum → JsNum → JsNum
  | .nan, _ => .nan
  | _, .nan => .nan
  | .posInf, .negInf => .nan
  | .negInf, .posInf => .nan
  | .posInf, _ => .posInf
  | _, .posInf => .posInf
  | .negInf, _ => .negInf
  | _, .negInf => .negInf
  | .fin a, .fin b => .fin (a + b)

/-- JavaScript subtraction `a - b`, i.e. `a + (-b)`. -/
def JsNum.sub (a b : JsNum) : JsNum := a.add b.neg

/-- JavaScript `Math.round`: nearest integer, halves rounding toward
positive infinity, i.e. `⌊x + 1/2⌋`. -/
def jsRound (q : ℚ) : ℤ := ⌊q + 1/2⌋

/-- Rounding to two decimal places exactly as written in the source:
`Math.round(x * 100) / 100`. -/
def round2 (q : ℚ) : ℚ := (jsRound (q * 100) : ℚ) / 100

/-- `account_type ∈ {bank_account, credit_card}` from the data model. -/
inductive AccountType where
  | bank_account
  | credit_card
deriving DecidableEq, Repr

/-- Account status: `active` or `closed`. -/
inductive AccountStatus where
  | active
  | closed
deriving DecidableEq, Repr

/-- Direction of a posting: `"add" | "remove"`. -/
inductive Operation where
  | add
  | remove
deriving DecidableEq, Repr

/-- One persisted write against the store.  History balances and transfer
amounts are JavaScript numbers because the transfer handler performs
unchecked JS arithmetic on a user-supplied amount. -/
inductive WriteEvent where
  | updateBalance (accountId : String) (newBalance : JsNum)
  | insertHistory (accountId : String) (balance : JsNum) (note : Option String)
  | insertTransfer (fromAccountId toAccountId : String) (amount : JsNum)
      (currency : String) (note : Option String)
deriving DecidableEq, Repr

/-- The signed delta of `updateAccountBalance`:
credit card: `add` is `+amount`, `remove` is `-amount`;
bank account: `add` is `-amount`, `remove` is `+amount`. -/
def postDelta (amount : ℚ) (accountType : AccountType) (operation : Operation) : ℚ :=
  match accountType, operation with
  | .credit_card, .add => amount
  | .credit_card, .remove => -amount
  | .bank_account, .add => -amount
  | .bank_account, .remove => amount

/-- The new balance computed by `updateAccountBalance`:
`Math.round((current + delta) * 100) / 100`. -/
def postNewBalance (current amount : ℚ) (accountType : AccountType)
    (operation : Operation) : ℚ :=
  round2 (current + postDelta amount accountType operation)

/-- The history note of `updateAccountBalance`:
`note || \x7bExpense created / Expense removed\x7d` (an empty string is falsy). -/
def postNote (note : Option String) (operation : Operation) : String :=
  let fallback := if operation = .add then "Expense created" else "Expense removed"
  match note with
  | some n => if n = "" then fallback else n
  | none => fallback

/-- The balance posting primitive (`updateAccountBalance` in the source).
`fetched` is the result of the initial `select current_balance` call
(`none` when the fetch errored or returned no row, in which case the
function returns with no writes at all).  `updateFails` / `historyFails`
model the outcome of the two store calls issued by `Promise.all`; the
source inspects neither, so both are always attempted and a failing call
merely contributes no write. -/
def updateAccountBalance (accountId : String) (amount : ℚ)
    (accountType : AccountType) (operation : Operation) (note : Option String)
    (fetched : Option ℚ) (updateFails historyFails : Bool) : List WriteEvent :=
  match fetched with
  | none => []
  | some current =>
      let newBalance := postNewBalance current amount accountType operation
      (if updateFails then [] else [.updateBalance accountId (.fin newBalance)])
        ++ (if historyFails then []
            else [.insertHistory accountId (.fin newBalance)
                    (some (postNote note operation))])

/-- An account row as loaded by the accounts table component. -/
structure Account where
  id : String
  account_name : String
  account_type : AccountType
  currency : String
  current_balance : ℚ
  status : AccountStatus
deriving DecidableEq, Repr

/-- Result of a call to the transfer handler. -/
inductive TransferOutcome where
  /-- An explicit validation toast followed by `return`; no writes. -/
  | rejected (msg : String)
  /-- The silent `if (!from || !to) return;` branch; no writes. -/
  | notFound
  /-- The source balance update errored; no writes committed. -/
  | sourceUpdateFailed
  /-- The destination balance update errored after the source update
  committed. -/
  | destUpdateFailed
  /-- The handler ran to completion with the two new balances. -/
  | success (fromNewBalance toNewBalance : JsNum)
deriving DecidableEq, Repr

/-- The straight-line body of `handleTransfer` once validation has
passed: compute both new balances under the type rules, then persist
source update, destination update, the two history rows (one insert
call) and the transfer record, in that order, stopping only when one of
the two inspected balance updates errors. -/
def transferCore (fromA toA : Account) (transferAmount : JsNum)
    (transferNote : String)
    (fromFails toFails historyFails recordFails : Bool) :
    TransferOutcome × List WriteEvent :=
  let newFromBalance := (JsNum.fin fromA.current_balance).sub transferAmount
  let newToBalance :=
    if toA.account_type = .credit_card then
      (JsNum.fin toA.current_balance).sub transferAmount
    else
      (JsNum.fin toA.current_balance).add transferAmount
  if fromFails then (.sourceUpdateFailed, [])
  else if toFails then
    (.destUpdateFailed, [.updateBalance fromA.id newFromBalance])
  else
    let historyNote :=
      if transferNote ≠ "" then "Transfer: " ++ transferNote
      else if toA.account_type = .credit_card then
        "Transfer payment to " ++ toA.account_name
      else "Transfer to " ++ toA.account_name
    let historyNoteReverse :=
      if transferNote ≠ "" then "Transfer: " ++ transferNote
      else "Transfer from " ++ fromA.account_name
    let recordNote := if transferNote = "" then none else some transferNote
    (.success newFromBalance newToBalance,
      [.updateBalance fromA.id newFromBalance,
       .updateBalance toA.id newToBalance]
      ++ (if historyFails then []
          else [.insertHistory fromA.id newFromBalance (some historyNote),
                .insertHistory toA.id newToBalance (some historyNoteReverse)])
      ++ (if recordFails then []
          else [.insertTransfer fromA.id toA.id transferAmount
                  fromA.currency recordNote]))

/-- The transfer handler (`handleTransfer` in the account table component).
`transferAmount` is the already-parsed `Number(transferAmount)`.
`fromFails` / `toFails` model the outcomes of the two balance-update
calls (each is inspected by the source); `historyFails` / `recordFails`
model the history insert (one call inserting two rows) and the transfer
record insert, whose errors the source ignores.  The returned list is
the trace of committed writes, in order. -/
def handleTransfer (accounts : List Account)
    (transferFromId transferToId : String) (transferAmount : JsNum)
    (transferNote : String)
    (fromFails toFails historyFails recordFails : Bool) :
    TransferOutcome × List WriteEvent :=
  if transferFromId = "" ∨ transferToId = "" then
    (.rejected "Select both accounts", [])
  else if transferFromId = transferToId then
    (.rejected "Cannot transfer to the same account", [])
  else if transferAmount.isNaN ∨ transferAmount.le0 then
    (.rejected "Enter a valid amount greater than 0", [])
  else
    match accounts.find? (fun a => a.id == transferFromId),
          accounts.find? (fun a => a.id == transferToId) with
    | none, _ => (.notFound, [])
    | _, none => (.notFound, [])
    | some fromA, some toA =>
      if fromA.currency ≠ toA.currency then
        (.rejected "Cannot transfer between different currencies", [])
      else
        transferCore fromA toA transferAmount transferNote
          fromFails toFails historyFails recordFails

/-- Result of a call to the manual balance correction handler. -/
inductive BalanceUpdateOutcome where
  /-- `isNaN` guard: toast and `return`, no writes. -/
  | invalidInput
  /-- The balance update call errored: toast and `return`, no history. -/
  | updateFailed
  /-- Balance committed but the history insert errored: warning toast. -/
  | historyWarning
  /-- Balance committed and history entry inserted. -/
  | success
deriving DecidableEq, Repr

/-- The manual balance correction (`handleBalanceUpdate` in the account
detail / account table components).  `parsed` is `Number(newBalance)`;
the only validation is the `isNaN` check, then the account balance is
set directly to `parsed` and a history row with the same balance is
inserted. -/
def handleBalanceUpdate (accountId : String) (parsed : JsNum)
    (balanceNote : String) (updateFails historyFails : Bool) :
    BalanceUpdateOutcome × List WriteEvent :=
  if parsed.isNaN then (.invalidInput, [])
  else if updateFails then (.updateFailed, [])
  else if historyFails then
    (.historyWarning, [.updateBalance accountId parsed])
  else
    (.success,
      [.updateBalance accountId parsed,
       .insertHistory accountId parsed
         (if balanceNote = "" then none else some balanceNote)])

/-- A rate table `Record<string, number>`: an association list in key
insertion order (JavaScript objects keep insertion order for string
keys and cannot hold duplicate keys). -/
def Rates := List (String × ℚ)

/-- `rates[c]`: the rate stored under key `c`, if any. -/
def lookupRate (rates : List (String × ℚ)) (c : String) : Option ℚ :=
  (rates.find? (fun p => p.1 == c)).map Prod.snd

/-- `Object.keys(rates).find((k) => rates[k] === 1)`: the first key whose
rate is exactly 1 (the base currency of the table). -/
def findBaseKey (rates : List (String × ℚ)) : Option String :=
  (rates.find? (fun p => p.2 == 1)).map Prod.fst

/-- `rates[k] = v`: overwrite the entry under `k` in place, or append a
new entry at the end. -/
def setKey : List (String × ℚ) → String → ℚ → List (String × ℚ)
  | [], k, v => [(k, v)]
  | (k', v') :: rest, k, v =>
      if k' = k then (k, v) :: rest else (k', v') :: setKey rest k v

/-- Pure conversion (`convertAmount` in the source): return the amount
unchanged when the currency is empty or is the first key with rate 1;
otherwise look the rate up, return the amount unchanged when the rate is
absent or falsy (0), else divide by the rate. -/
def convertAmount (amount : ℚ) (fromCurrency : String)
    (rates : List (String × ℚ)) : ℚ :=
  if fromCurrency = "" ∨ findBaseKey rates = some fromCurrency then amount
  else
    match lookupRate rates fromCurrency with
    | none => amount
    | some rate => if rate = 0 then amount else amount / rate

/-- `sumConverted`: reduce over the items, converting each and summing,
with no rounding at the aggregate level. -/
def sumConverted (items : List (ℚ × String)) (rates : List (String × ℚ)) : ℚ :=
  items.foldl (fun sum item => sum + convertAmount item.1 item.2 rates) 0

/-- The in-memory rate cache entry. -/
structure RatesCache where
  base : String
  rates : List (String × ℚ)
  fetchedAt : ℤ
deriving DecidableEq, Repr

/-- `CACHE_TTL = 24 * 60 * 60 * 1000` milliseconds. -/
def CACHE_TTL : ℤ := 24 * 60 * 60 * 1000

/-- The observable outcome of the external `fetch` call to the rate
provider: a transport error (the promise rejects), a non-success HTTP
response, or a success carrying the decoded `data.rates` table. -/
inductive FetchOutcome where
  | transportError
  | httpError (status : Nat)
  | ok (rates : List (String × ℚ))
deriving DecidableEq, Repr

/-- `fetchRates` in the source: on a non-ok response it logs and returns
the empty table; a transport error is not caught, so the promise
rejection propagates (`Except.error`); on success it returns
`data.rates ?? \x7b\x7d`. -/
def fetchRates : FetchOutcome → Except Unit (List (String × ℚ))
  | .transportError => .error ()
  | .httpError _ => .ok []
  | .ok rates => .ok rates

/-- `getExchangeRates` in the source, with the module-level cache and the
clock passed explicitly.  On a cache hit (same base, younger than the
TTL) the cached table is returned and the cache is unchanged; otherwise
`fetchRates` runs, the identity entry `rates[base] = 1` is added to
whatever it returned, and the cache is replaced.  A `fetchRates`
rejection propagates. -/
def getExchangeRates (base : String) (now : ℤ) (cache : Option RatesCache)
    (outcome : FetchOutcome) :
    Except Unit (List (String × ℚ) × Option RatesCache) :=
  match cache with
  | some c =>
      if c.base = base ∧ now - c.fetchedAt < CACHE_TTL then
        .ok (c.rates, some c)
      else
        match fetchRates outcome with
        | .error e => .error e
        | .ok r =>
            let rates := setKey r base 1
            .ok (rates, some ⟨base, rates, now⟩)
  | none =>
      match fetchRates outcome with
      | .error e => .error e
      | .ok r =>
          let rates := setKey r base 1
          .ok (rates, some ⟨base, rates, now⟩)

/-- True exactly on the outcomes produced by a pre-write early return of
the transfer handler (a validation toast or the silent not-found
return). -/
def TransferOutcome.isRejection : TransferOutcome → Bool
  | .rejected _ => true
  | .notFound => true
  | _ => false

/-- The audit invariant on a trace: every committed balance update has a
committed history entry recording exactly the same balance for the same
account. -/
def balancesMatchHistory (tr : List WriteEvent) : Prop :=
  ∀ a v, WriteEvent.updateBalance a v ∈ tr →
    ∃ n, WriteEvent.insertHistory a v n ∈ tr

/-! ## General lemmas -/

/-- `round2` is the identity on amounts that are an integer number of
hundredths. -/
theorem round2_intCast_div (k : ℤ) : round2 ((k : ℚ) / 100) = (k : ℚ) / 100 := by
  unfold round2 jsRound
  have h1 : ((k : ℚ) / 100) * 100 = (k : ℚ) := by field_simp
  have h2 : ⌊(k : ℚ) + 1/2⌋ = k := by
    rw [add_comm, Int.floor_add_int]
    norm_num
  rw [h1, h2]

/-! ## C1: sign rule and rounding of the balance posting primitive -/

/-- C1.  For every posting through the balance posting primitive with
amount `x ≥ 0`: on a `credit_card` account, `add` yields
`round2(current + x)` and `remove` yields `round2(current - x)`; on a
`bank_account`, `add` yields `round2(current - x)` and `remove` yields
`round2(current + x)`; `round2` rounds to two decimals with halves going
up (`⌊100·q + 1/2⌋ / 100`), and the primitive persists exactly that value
in both the balance update and the history entry. -/
theorem updateAccountBalance_sign_rule (current x : ℚ) (_hx : 0 ≤ x) :
    postNewBalance current x .credit_card .add = round2 (current + x) ∧
    postNewBalance current x .credit_card .remove = round2 (current - x) ∧
    postNewBalance current x .bank_account .add = round2 (current - x) ∧
    postNewBalance current x .bank_account .remove = round2 (current + x) ∧
    ∀ accountId note accountType operation,
      updateAccountBalance accountId x accountType operation note
          (some current) false false =
        [.updateBalance accountId
           (.fin (postNewBalance current x accountType operation)),
         .insertHistory accountId
           (.fin (postNewBalance current x accountType operation))
           (some (postNote note operation))] := by
  refine ⟨rfl, ?_, ?_, rfl, ?_⟩
  · simp [postNewBalance, postDelta, sub_eq_add_neg]
  · simp [postNewBalance, postDelta, sub_eq_add_neg]
  · intro accountId note accountType operation
    simp [updateAccountBalance]

/-- Witness for C1 at the spec's own example: a bank account at 1000.00
with a posting of 50.00. -/
theorem updateAccountBalance_sign_rule_witness :
    (0:ℚ) ≤ 50 ∧
    (postNewBalance 1000 50 .credit_card .add = round2 (1000 + 50) ∧
     postNewBalance 1000 50 .credit_card .remove = round2 (1000 - 50) ∧
     postNewBalance 1000 50 .bank_account .add = round2 (1000 - 50) ∧
     postNewBalance 1000 50 .bank_account .remove = round2 (1000 + 50) ∧
     ∀ accountId note accountType operation,
       updateAccountBalance accountId 50 accountType operation note
           (some 1000) false false =
         [.updateBalance accountId
            (.fin (postNewBalance 1000 50 accountType operation)),
          .insertHistory accountId
            (.fin (postNewBalance 1000 50 accountType operation))
            (some (postNote note operation))]) :=
  ⟨by norm_num, updateAccountBalance_sign_rule 1000 50 (by norm_num)⟩

/-! ## C9: a posting against a missing account performs no writes -/

/-- C9.  When the initial account fetch fails (error or no row), the
balance posting primitive returns normally with no writes at all — no
balance update and no history entry — for every amount, account type,
operation and note, and independently of how the store would have
behaved on the skipped calls. -/
theorem updateAccountBalance_missing_account
    (accountId : String) (amount : ℚ) (accountType : AccountType)
    (operation : Operation) (note : Option String)
    (updateFails historyFails : Bool) :
    updateAccountBalance accountId amount accountType operation note
      none updateFails historyFails = [] := rfl

/-! ## C8: add-then-remove round trip -/

/-- C8 fails as stated: starting from balance 0, posting `add` of 0.005
to a credit card rounds up to 0.01, and the following `remove` of 0.005
rounds back to 0.01, not to the original 0. -/
theorem post_roundtrip_cex :
    postNewBalance (postNewBalance 0 (1/200) .credit_card .add)
        (1/200) .credit_card .remove = 1/100 ∧
    (1/100 : ℚ) ≠ 0 := by
  constructor
  · norm_num [postNewBalance, postDelta, round2, jsRound]
  · norm_num

/-- C8 (amended).  If the starting balance `b` and the amount `x ≥ 0`
are both exact two-decimal values (an integer number of hundredths),
then posting `add` of `x` followed by `remove` of `x` restores the
balance to exactly `b`, for either account type. -/
theorem post_roundtrip (b x : ℚ) (t : AccountType) (hx : 0 ≤ x)
    (hb : ∃ m : ℤ, b = (m : ℚ) / 100) (hxc : ∃ n : ℤ, x = (n : ℚ) / 100) :
    postNewBalance (postNewBalance b x t .add) x t .remove = b := by
  obtain ⟨m, rfl⟩ := hb
  obtain ⟨n, rfl⟩ := hxc
  have hsum : ((m : ℚ) / 100 + (n : ℚ) / 100) = ((m + n : ℤ) : ℚ) / 100 := by
    push_cast
    ring
  have hdiff : ((m : ℚ) / 100 - (n : ℚ) / 100) = ((m - n : ℤ) : ℚ) / 100 := by
    push_cast
    ring
  cases t
  · show round2 (round2 ((m : ℚ)/100 + -((n : ℚ)/100)) + (n : ℚ)/100) = (m : ℚ)/100
    rw [← sub_eq_add_neg, hdiff, round2_intCast_div]
    have : ((m - n : ℤ) : ℚ) / 100 + (n : ℚ) / 100 = ((m : ℚ)) / 100 := by
      push_cast
      ring
    rw [this, round2_intCast_div]
  · show round2 (round2 ((m : ℚ)/100 + (n : ℚ)/100) + -((n : ℚ)/100)) = (m : ℚ)/100
    rw [hsum, round2_intCast_div, ← sub_eq_add_neg]
    have : ((m + n : ℤ) : ℚ) / 100 - (n : ℚ) / 100 = ((m : ℚ)) / 100 := by
      push_cast
      ring
    rw [this, round2_intCast_div]

/-- Witness for C8 (amended): a bank account at 1000.00 with an
add/remove pair of 50.00 returns to 1000.00. -/
theorem post_roundtrip_witness :
    postNewBalance (postNewBalance 1000 50 .bank_account .add)
      50 .bank_account .remove = 1000 :=
  post_roundtrip 1000 50 .bank_account (by norm_num)
    ⟨100000, by norm_num⟩ ⟨5000, by norm_num⟩

/-! ## C10: convertAmount never divides by zero -/

/-- C10.  A rate of 0 stored under the requested currency makes
`convertAmount` return the amount unchanged (the falsy-rate guard), and
in general every result of `convertAmount` is either the amount
unchanged or the amount divided by a nonzero rate present in the table —
so no division by zero ever happens on any input. -/
theorem convertAmount_no_zero_division (x : ℚ) (c : String)
    (rates : List (String × ℚ)) :
    (lookupRate rates c = some 0 → convertAmount x c rates = x) ∧
    (convertAmount x c rates = x ∨
      ∃ r, lookupRate rates c = some r ∧ r ≠ 0 ∧
        convertAmount x c rates = x / r) := by
  unfold convertAmount
  by_cases hbase : (c = "" ∨ findBaseKey rates = some c)
  · rw [if_pos hbase]
    exact ⟨fun _ => rfl, Or.inl rfl⟩
  · rw [if_neg hbase]
    cases hl : lookupRate rates c with
    | none => exact ⟨by simp, Or.inl rfl⟩
    | some r =>
      by_cases hr : r = 0
      · subst hr
        exact ⟨fun _ => by simp, Or.inl (by simp)⟩
      · refine ⟨fun h0 => ?_, Or.inr ⟨r, rfl, hr, by simp [hr]⟩⟩
        simp only [Option.some.injEq] at h0
        exact absurd h0 hr

/-- Witness for C10: a table holding rate 0 for USD leaves the amount
unchanged. -/
theorem convertAmount_no_zero_division_witness :
    convertAmount 5 "USD" [("USD", 0)] = 5 :=
  (convertAmount_no_zero_division 5 "USD" [("USD", 0)]).1 (by simp [lookupRate])

/-! ## C7: conversion rule of convertAmount -/

/-- In a table without duplicate keys, if the base-key scan finds `c`
(the first key with rate 1), then the rate stored under `c` is 1. -/
theorem lookupRate_of_findBaseKey (rates : List (String × ℚ)) (c : String)
    (hnd : (rates.map Prod.fst).Nodup) (h : findBaseKey rates = some c) :
    lookupRate rates c = some 1 := by
  unfold findBaseKey at h
  cases hfb : rates.find? (fun p => p.2 == 1) with
  | none => rw [hfb] at h; simp at h
  | some p =>
    rw [hfb] at h
    simp at h
    have hp1 : p.2 = 1 := by
      have := List.find?_some hfb
      simpa using this
    have hpmem : p ∈ rates := List.mem_of_find?_eq_some hfb
    cases hlk : rates.find? (fun q => q.1 == c) with
    | none =>
      exfalso
      have hall := List.find?_eq_none.mp hlk p hpmem
      simp [h] at hall
    | some q =>
      have hq : q.1 = c := by
        have := List.find?_some hlk
        simpa using this
      have hqmem : q ∈ rates := List.mem_of_find?_eq_some hlk
      have : q = p := List.inj_on_of_nodup_map hnd hqmem hpmem (by rw [hq, h])
      subst this
      simp [lookupRate, hlk, hp1]

/-- C7 fails as stated: with the table `\x7bUSD: 0\x7d`, the currency
`"USD"` is present, but `convertAmount` returns the amount unchanged (5)
instead of `amount / rates["USD"]`. -/
theorem convertAmount_conversion_rule_cex :
    lookupRate [("USD", 0)] "USD" = some 0 ∧
    convertAmount 5 "USD" [("USD", 0)] = 5 ∧
    convertAmount 5 "USD" [("USD", 0)] ≠ 5 / 0 := by
  refine ⟨by simp [lookupRate], by simp [convertAmount, findBaseKey, lookupRate], ?_⟩
  simp [convertAmount, findBaseKey, lookupRate]

/-- C7 (amended).  In a duplicate-free rate table, `convertAmount`
returns the amount unchanged when the currency is empty, absent from the
table, stored with rate 0 (the falsy-rate guard), or stored with rate 1
(the base currency); when the currency is present with a nonzero rate
`r`, it returns `amount / r`. -/
theorem convertAmount_conversion_rule (x : ℚ) (c : String)
    (rates : List (String × ℚ)) (hnd : (rates.map Prod.fst).Nodup) :
    (c = "" → convertAmount x c rates = x) ∧
    (lookupRate rates c = none → convertAmount x c rates = x) ∧
    (lookupRate rates c = some 0 → convertAmount x c rates = x) ∧
    (lookupRate rates c = some 1 → convertAmount x c rates = x) ∧
    (∀ r, c ≠ "" → lookupRate rates c = some r → r ≠ 0 →
      convertAmount x c rates = x / r) := by
  by_cases hbase : (c = "" ∨ findBaseKey rates = some c)
  · have hconv : convertAmount x c rates = x := by
      unfold convertAmount
      rw [if_pos hbase]
    refine ⟨fun _ => hconv, fun _ => hconv, fun _ => hconv, fun _ => hconv,
      fun r hc hr hr0 => ?_⟩
    have hb : findBaseKey rates = some c := hbase.resolve_left hc
    have h1 := lookupRate_of_findBaseKey rates c hnd hb
    rw [hr] at h1
    simp only [Option.some.injEq] at h1
    rw [hconv, h1, div_one]
  · have hconv : convertAmount x c rates =
        match lookupRate rates c with
        | none => x
        | some rate => if rate = 0 then x else x / rate := by
      unfold convertAmount
      rw [if_neg hbase]
    refine ⟨fun hc => absurd (Or.inl hc) hbase, ?_, ?_, ?_, ?_⟩
    · intro h
      rw [hconv, h]
    · intro h
      rw [hconv, h]
      simp
    · intro h
      rw [hconv, h]
      norm_num
    · intro r _ hr hr0
      rw [hconv, hr]
      simp [hr0]

/-- Witness for C7 (amended): with base PHP (rate 1) and USD at rate 2,
converting 10 USD yields 5. -/
theorem convertAmount_conversion_rule_witness :
    convertAmount 10 "USD" [("PHP", 1), ("USD", 2)] = 10 / 2 :=
  (convertAmount_conversion_rule 10 "USD" [("PHP", 1), ("USD", 2)]
      (by simp)).2.2.2.2 2 (by simp) (by simp [lookupRate]) (by norm_num)

/-! ## C6: behaviour of getExchangeRates when the rate fetch fails -/

/-- C6 fails as stated: on a cache miss with a non-success response,
`getExchangeRates` does not return an empty mapping — it returns the
one-entry mapping holding exactly the identity entry `base ↦ 1` — and a
transport error is not caught at all: the call propagates the error
instead of returning a mapping. -/
theorem getExchangeRates_failure_cex :
    getExchangeRates "PHP" 0 none (.httpError 500) =
      .ok ([("PHP", 1)], some ⟨"PHP", [("PHP", 1)], 0⟩) ∧
    ([("PHP", (1 : ℚ))] : List (String × ℚ)) ≠ [] ∧
    lookupRate [("PHP", 1)] "PHP" = some 1 ∧
    getExchangeRates "PHP" 0 none .transportError = .error () := by
  refine ⟨?_, by simp, by simp [lookupRate], ?_⟩
  · simp [getExchangeRates, fetchRates, setKey]
  · simp [getExchangeRates, fetchRates]

/-- C6 (amended).  On a cache miss, a non-success response from the rate
provider makes `getExchangeRates` return the mapping containing exactly
the identity entry `base ↦ 1` (the empty fetched table plus the
unconditionally-inserted identity entry), while a transport error
propagates out of `getExchangeRates` instead of producing a mapping. -/
theorem getExchangeRates_failure_behavior (base : String) (now : ℤ)
    (status : Nat) :
    getExchangeRates base now none (.httpError status) =
      .ok ([(base, 1)], some ⟨base, [(base, 1)], now⟩) ∧
    getExchangeRates base now none .transportError = .error () := by
  constructor
  · simp [getExchangeRates, fetchRates, setKey]
  · simp [getExchangeRates, fetchRates]

/-! ## C2: balance arithmetic of a successful transfer -/

/-- C2 (amended).  For every successful transfer of a finite amount `A`:
the source account's new balance is exactly `current_balance - A` (no
rounding is applied anywhere in the transfer path), regardless of the
source's account type; the destination's new balance is
`current_balance + A` for a `bank_account` and `current_balance - A` for
a `credit_card`; consequently, for a bank-destination transfer the sum
of the two accounts' new balances equals the sum of their old ones. -/
theorem transfer_balance_rule (accounts : List Account)
    (fromId toId : String) (A : ℚ) (note : String)
    (f1 f2 f3 f4 : Bool) (fromA toA : Account) (fN tN : JsNum)
    (hf : accounts.find? (fun a => a.id == fromId) = some fromA)
    (ht : accounts.find? (fun a => a.id == toId) = some toA)
    (hs : (handleTransfer accounts fromId toId (.fin A) note
            f1 f2 f3 f4).1 = .success fN tN) :
    fN = .fin (fromA.current_balance - A) ∧
    (toA.account_type = .bank_account → tN = .fin (toA.current_balance + A)) ∧
    (toA.account_type = .credit_card → tN = .fin (toA.current_balance - A)) ∧
    (fromA.current_balance - A) + (toA.current_balance + A)
      = fromA.current_balance + toA.current_balance := by
  unfold handleTransfer at hs
  rw [hf, ht] at hs
  repeat' split at hs
  all_goals try simp_all
  unfold transferCore at hs
  cases f1 <;> cases f2 <;> simp_all [JsNum.sub, JsNum.add, JsNum.neg]
  obtain ⟨h1, h2⟩ := hs
  subst h1
  subst h2
  refine ⟨by rw [sub_eq_add_neg], fun hb => ?_, fun hc => ?_⟩
  · rw [hb]
    simp
  · rw [hc]
    simp [sub_eq_add_neg]

/-- C2 fails as stated on the rounding clause: transferring 0.005 from a
bank account at 0 leaves the source at exactly -0.005, whereas the claim
says the source's new balance is `round2(0 − 0.005) = 0`; the transfer
path applies no rounding at all. -/
theorem transfer_balance_rule_cex :
    (handleTransfer
      [⟨"a", "A", .bank_account, "PHP", 0, .active⟩,
       ⟨"b", "B", .bank_account, "PHP", 100, .active⟩]
      "a" "b" (.fin (1/200)) "" false false false false).1 =
      .success (.fin (-(1/200))) (.fin (100 + 1/200)) ∧
    round2 (0 - 1/200) = 0 ∧
    (-(1/200) : ℚ) ≠ 0 := by
  refine ⟨?_, ?_, by norm_num⟩
  · simp [handleTransfer, transferCore, JsNum.isNaN, JsNum.le0, JsNum.sub,
      JsNum.add, JsNum.neg]
    norm_num
  · norm_num [round2, jsRound]

/-- Witness for C2 (amended): a successful 50.00 transfer between two
bank accounts at 1000.00 and 200.00 lands at 950.00 / 250.00 and
conserves the sum. -/
theorem transfer_balance_rule_witness :
    JsNum.fin 950 = JsNum.fin ((1000 : ℚ) - 50) ∧
    (AccountType.bank_account = AccountType.bank_account →
      JsNum.fin 250 = JsNum.fin ((200 : ℚ) + 50)) ∧
    (AccountType.bank_account = AccountType.credit_card →
      JsNum.fin 250 = JsNum.fin ((200 : ℚ) - 50)) ∧
    ((1000 : ℚ) - 50) + ((200 : ℚ) + 50) = (1000 : ℚ) + 200 :=
  transfer_balance_rule
    [⟨"a", "A", .bank_account, "PHP", 1000, .active⟩,
     ⟨"b", "B", .bank_account, "PHP", 200, .active⟩]
    "a" "b" 50 "" false false false false
    ⟨"a", "A", .bank_account, "PHP", 1000, .active⟩
    ⟨"b", "B", .bank_account, "PHP", 200, .active⟩
    (.fin 950) (.fin 250)
    (by simp) (by simp)
    (by
      simp [handleTransfer, transferCore, JsNum.isNaN, JsNum.le0, JsNum.sub,
        JsNum.add, JsNum.neg]
      norm_num)

/-! ## C3: validation of a transfer request -/

/-- C3 fails as stated in two ways.  First, account status is never
checked: a transfer whose source account is `closed` passes validation
and produces writes.  Second, the amount guard only tests `isNaN` and
`<= 0`, so the non-finite amount `+Infinity` also passes validation and
produces writes. -/
theorem transfer_validation_cex :
    ((handleTransfer
        [⟨"a", "A", .bank_account, "PHP", 100, .closed⟩,
         ⟨"b", "B", .bank_account, "PHP", 0, .active⟩]
        "a" "b" (.fin 10) "" false false false false).1 =
        .success (.fin 90) (.fin 10) ∧
      (handleTransfer
        [⟨"a", "A", .bank_account, "PHP", 100, .closed⟩,
         ⟨"b", "B", .bank_account, "PHP", 0, .active⟩]
        "a" "b" (.fin 10) "" false false false false).2 ≠ [] ∧
      (⟨"a", "A", .bank_account, "PHP", 100, .closed⟩ : Account).status =
        .closed) ∧
    ((handleTransfer
        [⟨"a", "A", .bank_account, "PHP", 100, .active⟩,
         ⟨"b", "B", .bank_account, "PHP", 0, .active⟩]
        "a" "b" .posInf "" false false false false).1 =
        .success .negInf .posInf ∧
      (handleTransfer
        [⟨"a", "A", .bank_account, "PHP", 100, .active⟩,
         ⟨"b", "B", .bank_account, "PHP", 0, .active⟩]
        "a" "b" .posInf "" false false false false).2 ≠ []) := by
  refine ⟨⟨?_, ?_, rfl⟩, ?_, ?_⟩
  · simp [handleTransfer, transferCore, JsNum.isNaN, JsNum.le0, JsNum.sub,
      JsNum.add, JsNum.neg]
    norm_num
  · simp [handleTransfer, transferCore, JsNum.isNaN, JsNum.le0, JsNum.sub,
      JsNum.add, JsNum.neg]
    norm_num
    exact List.cons_ne_nil _ _
  · simp [handleTransfer, transferCore, JsNum.isNaN, JsNum.le0, JsNum.sub,
      JsNum.add, JsNum.neg]
  · simp [handleTransfer, transferCore, JsNum.isNaN, JsNum.le0, JsNum.sub,
      JsNum.add, JsNum.neg]

/-- C3 (amended).  The transfer handler rejects, with no write of any
kind, every request in which a selection is empty, the source equals the
destination, the parsed amount is NaN or `<= 0`, either account id is
not found, or the two accounts' currencies differ.  (It checks neither
account status nor finiteness of the amount: a closed account or a
`+Infinity` amount passes validation.) -/
theorem transfer_validation_rules (accounts : List Account)
    (fromId toId : String) (amt : JsNum) (note : String)
    (f1 f2 f3 f4 : Bool) :
    ((fromId = "" ∨ toId = "") →
      handleTransfer accounts fromId toId amt note f1 f2 f3 f4 =
        (.rejected "Select both accounts", [])) ∧
    (fromId = toId →
      (handleTransfer accounts fromId toId amt note f1 f2 f3 f4).2 = [] ∧
      ((handleTransfer accounts fromId toId amt note f1 f2 f3 f4).1).isRejection
        = true) ∧
    ((amt.isNaN = true ∨ amt.le0 = true) →
      (handleTransfer accounts fromId toId amt note f1 f2 f3 f4).2 = [] ∧
      ((handleTransfer accounts fromId toId amt note f1 f2 f3 f4).1).isRejection
        = true) ∧
    (accounts.find? (fun a => a.id == fromId) = none →
      (handleTransfer accounts fromId toId amt note f1 f2 f3 f4).2 = [] ∧
      ((handleTransfer accounts fromId toId amt note f1 f2 f3 f4).1).isRejection
        = true) ∧
    (accounts.find? (fun a => a.id == toId) = none →
      (handleTransfer accounts fromId toId amt note f1 f2 f3 f4).2 = [] ∧
      ((handleTransfer accounts fromId toId amt note f1 f2 f3 f4).1).isRejection
        = true) ∧
    (∀ fromA toA, accounts.find? (fun a => a.id == fromId) = some fromA →
      accounts.find? (fun a => a.id == toId) = some toA →
      fromA.currency ≠ toA.currency →
      (handleTransfer accounts fromId toId amt note f1 f2 f3 f4).2 = [] ∧
      ((handleTransfer accounts fromId toId amt note f1 f2 f3 f4).1).isRejection
        = true) := by
  refine ⟨?_, ?_, ?_, ?_, ?_, ?_⟩
  · intro h
    unfold handleTransfer
    rw [if_pos h]
  · intro h
    unfold handleTransfer
    by_cases h1 : (fromId = "" ∨ toId = "")
    · rw [if_pos h1]
      exact ⟨rfl, rfl⟩
    rw [if_neg h1, if_pos h]
    exact ⟨rfl, rfl⟩
  · intro h
    unfold handleTransfer
    by_cases h1 : (fromId = "" ∨ toId = "")
    · rw [if_pos h1]
      exact ⟨rfl, rfl⟩
    rw [if_neg h1]
    by_cases h2 : fromId = toId
    · rw [if_pos h2]
      exact ⟨rfl, rfl⟩
    rw [if_neg h2, if_pos h]
    exact ⟨rfl, rfl⟩
  · intro h
    unfold handleTransfer
    by_cases h1 : (fromId = "" ∨ toId = "")
    · rw [if_pos h1]
      exact ⟨rfl, rfl⟩
    rw [if_neg h1]
    by_cases h2 : fromId = toId
    · rw [if_pos h2]
      exact ⟨rfl, rfl⟩
    rw [if_neg h2]
    by_cases h3 : (amt.isNaN = true ∨ amt.le0 = true)
    · rw [if_pos h3]
      exact ⟨rfl, rfl⟩
    rw [if_neg h3, h]
    cases hfb : accounts.find? (fun a => a.id == toId) with
    | none => exact ⟨rfl, rfl⟩
    | some toA => exact ⟨rfl, rfl⟩
  · intro h
    unfold handleTransfer
    by_cases h1 : (fromId = "" ∨ toId = "")
    · rw [if_pos h1]
      exact ⟨rfl, rfl⟩
    rw [if_neg h1]
    by_cases h2 : fromId = toId
    · rw [if_pos h2]
      exact ⟨rfl, rfl⟩
    rw [if_neg h2]
    by_cases h3 : (amt.isNaN = true ∨ amt.le0 = true)
    · rw [if_pos h3]
      exact ⟨rfl, rfl⟩
    rw [if_neg h3, h]
    cases hfa : accounts.find? (fun a => a.id == fromId) with
    | none => exact ⟨rfl, rfl⟩
    | some fromA => exact ⟨rfl, rfl⟩
  · intro fromA toA hf ht hne
    unfold handleTransfer
    by_cases h1 : (fromId = "" ∨ toId = "")
    · rw [if_pos h1]
      exact ⟨rfl, rfl⟩
    rw [if_neg h1]
    by_cases h2 : fromId = toId
    · rw [if_pos h2]
      exact ⟨rfl, rfl⟩
    rw [if_neg h2]
    by_cases h3 : (amt.isNaN = true ∨ amt.le0 = true)
    · rw [if_pos h3]
      exact ⟨rfl, rfl⟩
    rw [if_neg h3, hf, ht]
    simp [hne, TransferOutcome.isRejection]

/-- Witness for C3 (amended): a same-account transfer request is
rejected with no writes. -/
theorem transfer_validation_rules_witness :
    (handleTransfer
      [⟨"a", "A", .bank_account, "PHP", 100, .active⟩]
      "a" "a" (.fin 10) "" false false false false).2 = [] ∧
    ((handleTransfer
      [⟨"a", "A", .bank_account, "PHP", 100, .active⟩]
      "a" "a" (.fin 10) "" false false false false).1).isRejection = true :=
  (transfer_validation_rules
    [⟨"a", "A", .bank_account, "PHP", 100, .active⟩]
    "a" "a" (.fin 10) "" false false false false).2.1 rfl

/-! ## C4: persistence order and partial-failure policy of a transfer -/

/-- C4.  With the two uninspected inserts succeeding, the transfer
handler persists in the fixed order source update, destination update,
two history rows, one transfer record.  When the source update fails
nothing at all is committed; when the destination update fails after the
source update succeeded, exactly the source update is committed — it is
not reversed, and no history row or transfer record is ever written. -/
theorem transfer_write_order (accounts : List Account) (fromId toId : String)
    (amt : JsNum) (note : String) (f1 f2 : Bool) :
    ((handleTransfer accounts fromId toId amt note f1 f2 false false).1 =
        .sourceUpdateFailed →
      (handleTransfer accounts fromId toId amt note f1 f2 false false).2 = []) ∧
    (∀ fromA toA,
      accounts.find? (fun a => a.id == fromId) = some fromA →
      accounts.find? (fun a => a.id == toId) = some toA →
      (((handleTransfer accounts fromId toId amt note f1 f2 false false).1 =
          .destUpdateFailed →
        (handleTransfer accounts fromId toId amt note f1 f2 false false).2 =
          [.updateBalance fromA.id
            ((JsNum.fin fromA.current_balance).sub amt)]) ∧
      (∀ fN tN,
        (handleTransfer accounts fromId toId amt note f1 f2 false false).1 =
          .success fN tN →
        ∃ n1 n2 rn,
          (handleTransfer accounts fromId toId amt note f1 f2 false false).2 =
            [.updateBalance fromA.id fN,
             .updateBalance toA.id tN,
             .insertHistory fromA.id fN (some n1),
             .insertHistory toA.id tN (some n2),
             .insertTransfer fromA.id toA.id amt fromA.currency rn]))) := by
  rcases hr : handleTransfer accounts fromId toId amt note f1 f2 false false
    with ⟨out, tr⟩
  dsimp only
  unfold handleTransfer at hr
  repeat' split at hr
  all_goals
    first
    | (injection hr with ho htr
       subst ho
       subst htr
       simp)
    | skip
  unfold transferCore at hr
  cases f1 <;> cases f2 <;> simp only [Bool.false_eq_true, if_false, if_true,
    ite_true, ite_false, cond_true, cond_false, if_neg, not_false_iff] at hr
  all_goals
    rename_i fA tA heqf heqt hcur
  all_goals
    injection hr with ho htr
  all_goals
    subst ho
  all_goals
    subst htr
  all_goals
    refine ⟨fun hout => ?_, fun fromA toA hf ht => ?_⟩
  any_goals
    first
    | rfl
    | exact absurd hout (by simp)
  all_goals
    rw [heqf] at hf
  all_goals
    rw [heqt] at ht
  all_goals
    injection hf with hf1
  all_goals
    injection ht with ht1
  all_goals
    subst hf1
  all_goals
    subst ht1
  all_goals
    refine ⟨fun hout2 => ?_, fun fN tN hout3 => ?_⟩
  all_goals
    first
    | rfl
    | (injection hout3 with e1 e2
       subst e1
       subst e2
       exact ⟨_, _, _, rfl⟩)
    | exact absurd hout2 (by simp)
    | exact absurd hout3 (by simp)

/-- Witness for C4: a successful 50.00 bank-to-bank transfer commits
exactly the five writes in order. -/
theorem transfer_write_order_witness :
    ∃ n1 n2 rn,
      (handleTransfer
        [⟨"a", "A", .bank_account, "PHP", 1000, .active⟩,
         ⟨"b", "B", .bank_account, "PHP", 200, .active⟩]
        "a" "b" (.fin 50) "" false false false false).2 =
        [.updateBalance "a" (.fin 950),
         .updateBalance "b" (.fin 250),
         .insertHistory "a" (.fin 950) (some n1),
         .insertHistory "b" (.fin 250) (some n2),
         .insertTransfer "a" "b" (.fin 50) "PHP" rn] :=
  ((transfer_write_order
      [⟨"a", "A", .bank_account, "PHP", 1000, .active⟩,
       ⟨"b", "B", .bank_account, "PHP", 200, .active⟩]
      "a" "b" (.fin 50) "" false false).2
    ⟨"a", "A", .bank_account, "PHP", 1000, .active⟩
    ⟨"b", "B", .bank_account, "PHP", 200, .active⟩
    (by simp) (by simp)).2 (.fin 950) (.fin 250)
    (by
      simp [handleTransfer, transferCore, JsNum.isNaN, JsNum.le0, JsNum.sub,
        JsNum.add, JsNum.neg]
      norm_num)

/-! ## C5: every balance update is paired with a history entry -/

/-- C5 fails as stated: when the destination update of a transfer
errors, the already-committed source balance update is left with no
history entry at all (the partial-write case the design documents). -/
theorem ledger_history_invariant_cex :
    ¬ balancesMatchHistory
        (handleTransfer
          [⟨"a", "A", .bank_account, "PHP", 100, .active⟩,
           ⟨"b", "B", .bank_account, "PHP", 0, .active⟩]
          "a" "b" (.fin 10) "" false true false false).2 := by
  have htr : (handleTransfer
      [⟨"a", "A", .bank_account, "PHP", 100, .active⟩,
       ⟨"b", "B", .bank_account, "PHP", 0, .active⟩]
      "a" "b" (.fin 10) "" false true false false).2 =
      [.updateBalance "a" (.fin 90)] := by
    simp [handleTransfer, transferCore, JsNum.isNaN, JsNum.le0, JsNum.sub,
      JsNum.add, JsNum.neg]
    norm_num
  rw [htr]
  intro h
  obtain ⟨n, hn⟩ := h "a" (.fin 90) (by simp)
  simp at hn

/-- C5 (amended).  In executions where every persistence call succeeds,
each of the three balance-mutating operations — the expense-linked
posting primitive, the transfer handler (both legs), and the manual
balance correction — appends, for every balance update it commits, a
history entry recording exactly the committed balance; so the stored
`current_balance` always equals the balance of the history entry written
by the same operation.  (When a destination update or a history insert
fails, the code does leave a balance update without its history row.) -/
theorem ledger_history_invariant :
    (∀ accountId amount accountType operation note fetched,
      balancesMatchHistory
        (updateAccountBalance accountId amount accountType operation note
          fetched false false)) ∧
    (∀ accounts fromId toId amt note,
      balancesMatchHistory
        (handleTransfer accounts fromId toId amt note
          false false false false).2) ∧
    (∀ accountId parsed balanceNote,
      balancesMatchHistory
        (handleBalanceUpdate accountId parsed balanceNote false false).2) := by
  refine ⟨?_, ?_, ?_⟩
  · intro accountId amount accountType operation note fetched a v hmem
    cases fetched with
    | none => simp [updateAccountBalance] at hmem
    | some cur =>
      simp [updateAccountBalance] at hmem
      obtain ⟨ha, hv⟩ := hmem
      subst ha
      subst hv
      exact ⟨some (postNote note operation), by simp [updateAccountBalance]⟩
  · intro accounts fromId toId amt note
    rcases hr : handleTransfer accounts fromId toId amt note
      false false false false with ⟨out, tr⟩
    dsimp only
    unfold handleTransfer at hr
    repeat' split at hr
    all_goals
      injection hr with ho htr
    all_goals
      subst ho
    all_goals
      subst htr
    all_goals
      intro a v hmem
    all_goals
      simp at hmem
    rename_i fA tA heqf heqt hcur
    rcases hmem with ⟨ha, hv⟩ | ⟨ha, hv⟩ <;> subst ha <;> subst hv
    · exact ⟨some (if note ≠ "" then "Transfer: " ++ note
        else if tA.account_type = .credit_card then
          "Transfer payment to " ++ tA.account_name
        else "Transfer to " ++ tA.account_name), by simp⟩
    · exact ⟨some (if note ≠ "" then "Transfer: " ++ note
        else "Transfer from " ++ fA.account_name), by simp⟩
  · intro accountId parsed balanceNote a v hmem
    unfold handleBalanceUpdate at hmem ⊢
    by_cases hnan : parsed.isNaN = true
    · rw [if_pos hnan] at hmem
      simp at hmem
    · rw [if_neg hnan] at hmem ⊢
      simp only [Bool.false_eq_true, if_false, ite_false] at hmem ⊢
      simp at hmem
      obtain ⟨ha, hv⟩ := hmem
      subst ha
      subst hv
      exact ⟨(if balanceNote = "" then none else some balanceNote), by simp⟩

/-- Witness for C5 (amended): a fully successful expense posting of
50.00 against a bank account at 1000.00 has a history entry recording
the same 950.00 committed to the account. -/
theorem ledger_history_invariant_witness :
    ∃ n, WriteEvent.insertHistory "a"
        (.fin (postNewBalance 1000 50 .bank_account .add)) n ∈
      updateAccountBalance "a" 50 .bank_account .add none (some 1000)
        false false :=
  ledger_history_invariant.1 "a" 50 .bank_account .add none (some 1000)
    "a" (.fin (postNewBalance 1000 50 .bank_account .add))
    (by simp [updateAccountBalance])

end Portal
